import Mathlib

/-!
# Verification of `streamlit-youtune.py`

A shallow embedding of the frame-extraction pipeline: downloading a video,
extracting every Nth frame while skipping mostly-black/mostly-white frames,
displaying frames for selection, and zipping the selected frames.

Pixels are modelled as BGR triples of naturals (as delivered by OpenCV),
frames as lists of pixels.  File-system and UI effects are modelled by the
data they produce: the extraction loop returns the list of saved frames
(with their sequence numbers), the list of frame indices tested against the
black/white heuristic, and the list of values passed to the progress bar.
Real-valued arithmetic (`0.95` threshold, progress fractions) is modelled
over `ℚ`.
-/

namespace YouTune

/-- A pixel in BGR channel order, as OpenCV stores frames. -/
abbrev Pixel := Nat × Nat × Nat

/-- A decoded video frame: its pixels (flattened). -/
abbrev Frame := List Pixel

/-- `cv2.cvtColor(·, cv2.COLOR_BGR2GRAY)` on one pixel: OpenCV's fixed-point
grayscale conversion `(1868*B + 9617*G + 4899*R + 2^13) >> 14`
(the 14-bit fixed-point form of `0.114*B + 0.587*G + 0.299*R`). -/
def cvtColorGray (p : Pixel) : Nat :=
  (1868 * p.1 + 9617 * p.2.1 + 4899 * p.2.2 + 8192) / 16384

/-- The grayscale image of a frame (`gray_frame` in the source). -/
def grayFrame (f : Frame) : List Nat := f.map cvtColorGray

/-- `gray_frame.size`. -/
def numPixels (f : Frame) : Nat := (grayFrame f).length

/-- `np.sum(gray_frame < 30)`: pixels close to black. -/
def numBlackPixels (f : Frame) : Nat := ((grayFrame f).filter (fun g => g < 30)).length

/-- `np.sum(gray_frame > 225)`: pixels close to white. -/
def numWhitePixels (f : Frame) : Nat := ((grayFrame f).filter (fun g => 225 < g)).length

/-- `is_black_or_white_frame(frame, threshold)`: true when the fraction of
near-black pixels or of near-white pixels strictly exceeds `threshold`. -/
def is_black_or_white_frameT (f : Frame) (threshold : ℚ) : Bool :=
  decide ((numBlackPixels f : ℚ) / (numPixels f : ℚ) > threshold)
    || decide ((numWhitePixels f : ℚ) / (numPixels f : ℚ) > threshold)

/-- `is_black_or_white_frame(frame)` with the default `threshold=0.95`. -/
def is_black_or_white_frame (f : Frame) : Bool :=
  is_black_or_white_frameT f (19/20)

/-- `total_frames` after the guard `if total_frames == 0: total_frames = 1`. -/
def effectiveTotal (reported : Nat) : Nat :=
  if reported = 0 then 1 else reported

/-- The value passed to the progress bar:
`min(frame_count / total_frames, 1.0)`. -/
def progressValue (frame_count reported : Nat) : ℚ :=
  min ((frame_count : ℚ) / (effectiveTotal reported : ℚ)) 1

/-- The mutable state of the `extract_frames` loop, together with the
observable output: saved frames (sequence number and frame, in save order),
frame indices tested against the heuristic, and progress-bar values. -/
structure ExtractState where
  frame_count : Nat
  extracted_count : Nat
  saved : List (Nat × Frame)
  tested : List Nat
  progressVals : List ℚ
deriving Repr, DecidableEq

/-- The state before the `while` loop of `extract_frames`. -/
def initState : ExtractState := ⟨0, 0, [], [], []⟩

/-- One iteration of the `extract_frames` loop body on a decoded frame. -/
def extractStep (frame_interval reported : Nat) (s : ExtractState) (frame : Frame) :
    ExtractState :=
  let s1 :=
    if s.frame_count % frame_interval = 0 then
      if is_black_or_white_frame frame = false then
        { s with
          extracted_count := s.extracted_count + 1
          saved := s.saved ++ [(s.extracted_count, frame)]
          tested := s.tested ++ [s.frame_count] }
      else
        { s with tested := s.tested ++ [s.frame_count] }
    else s
  { s1 with
    frame_count := s1.frame_count + 1
    progressVals := s1.progressVals ++ [progressValue (s1.frame_count + 1) reported] }

/-- `extract_frames(video_path, frame_folder, frame_interval)`: the loop over
the `frames` the capture decodes, with `reported` the frame count reported by
`cap.get(cv2.CAP_PROP_FRAME_COUNT)`. -/
def extract_frames (frame_interval reported : Nat) (frames : List Frame) :
    ExtractState :=
  frames.foldl (extractStep frame_interval reported) initState

/-- Python's `%` on naturals: raises `ZeroDivisionError` on a zero modulus. -/
def pymod (a b : Nat) : Except String Nat :=
  if b = 0 then .error "ZeroDivisionError" else .ok (a % b)

/-- One iteration of the loop body with Python's fallible `%`. -/
def extractStepChecked (frame_interval reported : Nat) (s : ExtractState)
    (frame : Frame) : Except String ExtractState := do
  let m ← pymod s.frame_count frame_interval
  let s1 :=
    if m = 0 then
      if is_black_or_white_frame frame = false then
        { s with
          extracted_count := s.extracted_count + 1
          saved := s.saved ++ [(s.extracted_count, frame)]
          tested := s.tested ++ [s.frame_count] }
      else
        { s with tested := s.tested ++ [s.frame_count] }
    else s
  return { s1 with
    frame_count := s1.frame_count + 1
    progressVals := s1.progressVals ++ [progressValue (s1.frame_count + 1) reported] }

/-- `extract_frames` with Python's fallible `%`: an exception propagates. -/
def extract_frames_checked (frame_interval reported : Nat) (frames : List Frame) :
    Except String ExtractState :=
  frames.foldlM (extractStepChecked frame_interval reported) initState

/-- `f"{n:05d}"`: decimal digits of `n`, left-padded with zeros to width 5. -/
def padZeros5 (n : Nat) : String :=
  let s := toString n
  if s.length < 5 then String.mk (List.replicate (5 - s.length) '0') ++ s else s

/-- The filename `f"frame_{extracted_count:05d}.jpg"` given to a saved frame. -/
def frameFilename (n : Nat) : String := "frame_" ++ padZeros5 n ++ ".jpg"

/-- Split a character list at its last `'.'`, returning the part before the
dot and the part from the dot on; `none` when no dot occurs. -/
def splitAtLastDot : List Char → Option (List Char × List Char)
  | [] => none
  | c :: cs =>
    match splitAtLastDot cs with
    | some (pre, post) => some (c :: pre, post)
    | none => if c = '.' then some ([], c :: cs) else none

/-- `os.path.splitext(p)` for a plain filename (no path separators): the
extension begins at the last dot, except that a name whose every character
before that dot is itself a dot (leading dots) has no extension. -/
def splitext (p : String) : String × String :=
  match splitAtLastDot p.toList with
  | some (pre, post) =>
      if pre.all (fun c => c = '.') then (p, "") else (String.mk pre, String.mk post)
  | none => (p, "")

/-- The archive name given to a selected file: `f"{name}_{trigger_word}{ext}"`
when `trigger_word` is truthy (non-empty), otherwise the file's own name. -/
def arcName (trigger_word img_file : String) : String :=
  let ne := splitext img_file
  if trigger_word ≠ "" then ne.1 ++ "_" ++ trigger_word ++ ne.2 else img_file

/-- `zip_selected_frames(folder_path, output_zip, selected_frames,
trigger_word)`: the archive written, as the list of its entries in write
order — each entry is `(arcname, source path)`. -/
def zip_selected_frames (folder_path : String) (selected_frames : List String)
    (trigger_word : String) : List (String × String) :=
  selected_frames.foldl
    (fun zipf img_file =>
      zipf ++ [(arcName trigger_word img_file, folder_path ++ "/" ++ img_file)])
    []

/-- `sorted(os.listdir(frame_folder))`: the directory listing in sorted
order (Python sorts strings lexicographically by code point, as `≤` on
`String` does; `sorted` is a stable sort, so on a linear order its output
is the unique sorted permutation of its input). -/
def sortedListdir (files : List String) : List String :=
  List.insertionSort (fun a b => a ≤ b) files

/-- `display_and_select_frames(frame_folder)`: iterates over the sorted
listing, shows each file with a checkbox whose default value is `True`, and
collects the files whose checkbox is on.  `checkboxState f` is the user's
recorded toggle for file `f` (`none` when the user never touched it, so the
default applies). -/
def display_and_select_frames (files : List String)
    (checkboxState : String → Option Bool) : List String :=
  (sortedListdir files).foldl
    (fun selected_frames img_file =>
      if (checkboxState img_file).getD true then selected_frames ++ [img_file]
      else selected_frames)
    []

/-- What the "Proceed to Download" handler produced: the errors reported via
`st.error`, and the archive written (name and entries), if any. -/
structure ProceedResult where
  errors : List String
  archive : Option (String × List (String × String))
deriving Repr, DecidableEq

/-- The `if proceed:` branch of `main`: with an empty selection it reports an
error and writes nothing; otherwise it calls `zip_selected_frames` on the
selection. -/
def proceed_to_download (frames_path dataset_name : String)
    (selected_frames : List String) (trigger_word : String) : ProceedResult :=
  if selected_frames.isEmpty then
    { errors := ["No frames selected. Please select at least one frame."]
      archive := none }
  else
    { errors := []
      archive := some (dataset_name ++ ".zip",
        zip_selected_frames frames_path selected_frames trigger_word) }

/-- Outcome of the `yt-dlp` call inside `download_youtube_video`: either the
prepared filename and the (possibly absent) title from `info_dict`, or an
exception message. -/
inductive DlOutcome
  | ok (filename : String) (title : Option String)
  | err (msg : String)
deriving Repr, DecidableEq

/-- What `download_youtube_video` returned and reported. -/
structure DownloadResult where
  path : Option String
  title : Option String
  errors : List String
deriving Repr, DecidableEq

/-- `download_youtube_video(url, output_path)`: on success returns the
filename and title; on any exception reports `st.error` and returns
`None, None`. -/
def download_youtube_video (outcome : DlOutcome) : DownloadResult :=
  match outcome with
  | .ok filename title => { path := some filename, title := title, errors := [] }
  | .err e =>
      { path := none, title := none
        errors := ["Error downloading video: " ++ e] }

/-- Python's truthiness for an optional string (`if video_path:`). -/
def truthyOptStr (s : Option String) : Bool :=
  match s with
  | none => false
  | some t => t ≠ ""

/-- Whether `main`'s extraction stage proceeds past the download: the body
guarded by `if video_path:` runs. -/
def extraction_stage_runs (outcome : DlOutcome) : Bool :=
  truthyOptStr (download_youtube_video outcome).path

/-- A 100-pixel frame with exactly 95 near-black pixels (grayscale 0) and 5
mid-gray pixels (grayscale 100): exactly 95% of its pixels are below
intensity 30. -/
def borderlineFrame : Frame :=
  List.replicate 95 (0, 0, 0) ++ List.replicate 5 (100, 100, 100)

/-- A fully black 10-pixel frame: 100% of its pixels are below intensity 30. -/
def blackFrame : Frame := List.replicate 10 (0, 0, 0)

/-! ## Helper lemmas about one iteration of the extraction loop -/

lemma extractStep_cases (i r : Nat) (s : ExtractState) (f : Frame) :
    ((extractStep i r s f).saved = s.saved ∧
      (extractStep i r s f).extracted_count = s.extracted_count) ∨
    ((extractStep i r s f).saved = s.saved ++ [(s.extracted_count, f)] ∧
      (extractStep i r s f).extracted_count = s.extracted_count + 1 ∧
      is_black_or_white_frame f = false) := by
  simp only [extractStep]
  split
  · split
    · rename_i hf
      exact Or.inr ⟨rfl, rfl, hf⟩
    · exact Or.inl ⟨rfl, rfl⟩
  · exact Or.inl ⟨rfl, rfl⟩

lemma extractStep_frame_count (i r : Nat) (s : ExtractState) (f : Frame) :
    (extractStep i r s f).frame_count = s.frame_count + 1 := by
  simp only [extractStep]
  split
  · split <;> rfl
  · rfl

lemma extractStep_tested (i r : Nat) (s : ExtractState) (f : Frame) :
    (extractStep i r s f).tested
      = s.tested ++ if s.frame_count % i = 0 then [s.frame_count] else [] := by
  simp only [extractStep]
  split
  · split <;> rfl
  · exact (List.append_nil _).symm

lemma extractStep_progress (i r : Nat) (s : ExtractState) (f : Frame) :
    (extractStep i r s f).progressVals
      = s.progressVals ++ [progressValue (s.frame_count + 1) r] := by
  simp only [extractStep]
  split
  · split <;> rfl
  · rfl

/-! ## Invariants of the whole extraction loop -/

lemma foldl_frame_count (i r : Nat) : ∀ (fs : List Frame) (s : ExtractState),
    (fs.foldl (extractStep i r) s).frame_count = s.frame_count + fs.length
  | [], _ => by simp
  | f :: fs, s => by
      rw [List.foldl_cons, foldl_frame_count i r fs, extractStep_frame_count,
        List.length_cons]
      omega

lemma foldl_saved_fst (i r : Nat) : ∀ (fs : List Frame) (s : ExtractState),
    s.saved.map Prod.fst = List.range s.extracted_count →
    (fs.foldl (extractStep i r) s).saved.map Prod.fst
      = List.range (fs.foldl (extractStep i r) s).extracted_count
  | [], _, h => h
  | f :: fs, s, h => by
      rw [List.foldl_cons]
      refine foldl_saved_fst i r fs _ ?_
      rcases extractStep_cases i r s f with ⟨h1, h2⟩ | ⟨h1, h2, _⟩
      · rw [h1, h2, h]
      · rw [h1, h2, List.map_append, h, List.range_succ]
        rfl

lemma foldl_saved_not_bw (i r : Nat) : ∀ (fs : List Frame) (s : ExtractState),
    (∀ p ∈ s.saved, is_black_or_white_frame p.2 = false) →
    ∀ p ∈ (fs.foldl (extractStep i r) s).saved, is_black_or_white_frame p.2 = false
  | [], _, h => h
  | f :: fs, s, h => by
      rw [List.foldl_cons]
      refine foldl_saved_not_bw i r fs _ ?_
      rcases extractStep_cases i r s f with ⟨h1, _⟩ | ⟨h1, _, hf⟩
      · rw [h1]; exact h
      · rw [h1]
        intro p hp
        rcases List.mem_append.mp hp with hp1 | hp1
        · exact h p hp1
        · rcases List.mem_singleton.mp hp1 with rfl
          exact hf

lemma foldl_tested (i r : Nat) : ∀ (fs : List Frame) (s : ExtractState),
    (fs.foldl (extractStep i r) s).tested
      = s.tested ++ (List.range' s.frame_count fs.length).filter (fun j => j % i = 0)
  | [], s => by simp
  | f :: fs, s => by
      rw [List.foldl_cons, foldl_tested i r fs, extractStep_tested,
        extractStep_frame_count, List.length_cons, List.range'_succ, List.filter_cons]
      by_cases hc : s.frame_count % i = 0
      · simp [hc]
      · simp [hc]

lemma foldl_progress_le (i r : Nat) : ∀ (fs : List Frame) (s : ExtractState),
    (∀ q ∈ s.progressVals, q ≤ 1) →
    ∀ q ∈ (fs.foldl (extractStep i r) s).progressVals, q ≤ 1
  | [], _, h => h
  | f :: fs, s, h => by
      rw [List.foldl_cons]
      refine foldl_progress_le i r fs _ ?_
      rw [extractStep_progress]
      intro q hq
      rcases List.mem_append.mp hq with h1 | h1
      · exact h q h1
      · rcases List.mem_singleton.mp h1 with rfl
        exact min_le_right _ _

lemma extractStepChecked_eq (i r : Nat) (hi : i ≠ 0) (s : ExtractState) (f : Frame) :
    extractStepChecked i r s f = .ok (extractStep i r s f) := by
  simp only [extractStepChecked, extractStep, pymod, if_neg hi]
  rfl

lemma foldlM_checked (i r : Nat) (hi : i ≠ 0) : ∀ (fs : List Frame) (s : ExtractState),
    fs.foldlM (extractStepChecked i r) s = .ok (fs.foldl (extractStep i r) s)
  | [], _ => rfl
  | f :: fs, s => by
      rw [List.foldlM_cons, extractStepChecked_eq i r hi, List.foldl_cons]
      exact foldlM_checked i r hi fs (extractStep i r s f)

/-- The number of multiples of `N` among `0, …, T-1` is `⌈T / N⌉`. -/
lemma length_filter_mod_range (N : Nat) (hN : 1 ≤ N) :
    ∀ T, ((List.range T).filter (fun j => j % N = 0)).length = (T + N - 1) / N
  | 0 => by
      simp [Nat.div_eq_of_lt (show N - 1 < N by omega)]
  | T + 1 => by
      rw [List.range_succ T, List.filter_append, List.length_append,
        length_filter_mod_range N hN T]
      have e0 : T + 1 + N - 1 = (T + N - 1) + 1 := by omega
      have e1 : T + N - 1 + 1 = T + N := by omega
      rw [e0, Nat.succ_div, e1]
      by_cases h : T % N = 0
      · have hd : N ∣ T + N := Nat.dvd_add (Nat.dvd_of_mod_eq_zero h) dvd_rfl
        simp [h, hd]
      · have hd : ¬ N ∣ T + N := fun hdd =>
          h (Nat.dvd_iff_mod_eq_zero.mp (Nat.dvd_add_self_right.mp hdd))
        simp [h, hd]

/-! ## Helper lemmas about zipping and the selection gallery -/

lemma zip_foldl_general (folder trigger : String) :
    ∀ (sel : List String) (acc : List (String × String)),
    sel.foldl
      (fun zipf img => zipf ++ [(arcName trigger img, folder ++ "/" ++ img)]) acc
      = acc ++ sel.map (fun img => (arcName trigger img, folder ++ "/" ++ img))
  | [], acc => by simp
  | img :: sel, acc => by
      rw [List.foldl_cons, zip_foldl_general folder trigger sel, List.map_cons,
        List.append_assoc]
      rfl

lemma zip_map_fst (folder : String) (sel : List String) (trigger : String) :
    (zip_selected_frames folder sel trigger).map Prod.fst
      = sel.map (arcName trigger) := by
  rw [zip_selected_frames, zip_foldl_general, List.nil_append, List.map_map]
  rfl

lemma zip_length (folder : String) (sel : List String) (trigger : String) :
    (zip_selected_frames folder sel trigger).length = sel.length := by
  rw [zip_selected_frames, zip_foldl_general, List.nil_append, List.length_map]

lemma display_foldl_general (st : String → Option Bool) :
    ∀ (l : List String) (acc : List String),
    l.foldl (fun sel f => if (st f).getD true then sel ++ [f] else sel) acc
      = acc ++ l.filter (fun f => (st f).getD true)
  | [], acc => by simp
  | f :: l, acc => by
      rw [List.foldl_cons, display_foldl_general st l, List.filter_cons]
      by_cases hf : (st f).getD true
      · simp [hf]
      · simp [hf]

lemma display_eq_filter (files : List String) (st : String → Option Bool) :
    display_and_select_frames files st
      = (sortedListdir files).filter (fun f => (st f).getD true) := by
  rw [display_and_select_frames, display_foldl_general, List.nil_append]

lemma mem_sortedListdir (files : List String) (f : String) :
    f ∈ sortedListdir files ↔ f ∈ files :=
  (List.perm_insertionSort _ files).mem_iff

/-! ## Claims -/

/-- C1 (counterexample): a frame in which exactly 95% of the grayscale
pixels are below intensity 30 — so "at least 95%" holds — is not flagged by
`is_black_or_white_frame` (the code compares with strict `>`), and
`extract_frames` does save it. -/
theorem bw_threshold_boundary_counterexample :
    (19 : ℚ)/20 ≤ (numBlackPixels borderlineFrame : ℚ) / (numPixels borderlineFrame : ℚ) ∧
    is_black_or_white_frame borderlineFrame = false ∧
    (extract_frames 1 1 [borderlineFrame]).saved.map Prod.snd = [borderlineFrame] := by
  have hb : numBlackPixels borderlineFrame = 95 := by decide
  have hw : numWhitePixels borderlineFrame = 0 := by decide
  have hn : numPixels borderlineFrame = 100 := by decide
  have hbwf : is_black_or_white_frame borderlineFrame = false := by
    rw [is_black_or_white_frame, is_black_or_white_frameT, hb, hw, hn]
    simp only [Bool.or_eq_false_iff, decide_eq_false_iff_not, gt_iff_lt, not_lt]
    norm_num
  refine ⟨by rw [hb, hn]; norm_num, hbwf, ?_⟩
  have hrun : (extract_frames 1 1 [borderlineFrame]).saved = [(0, borderlineFrame)] := by
    simp only [extract_frames, List.foldl_cons, List.foldl_nil]
    simp [extractStep, initState, hbwf]
  rw [hrun]
  rfl

/-- C1 (amended): a frame in which strictly more than 95% of the grayscale
pixels are below intensity 30, or strictly more than 95% are above
intensity 225, is flagged by `is_black_or_white_frame` and is never among
the frames `extract_frames` saves. -/
theorem extract_never_saves_mostly_bw_frame (interval reported : Nat)
    (frames : List Frame) (f : Frame)
    (hf : (19 : ℚ)/20 < (numBlackPixels f : ℚ) / (numPixels f : ℚ) ∨
          (19 : ℚ)/20 < (numWhitePixels f : ℚ) / (numPixels f : ℚ)) :
    is_black_or_white_frame f = true ∧
    ∀ p ∈ (extract_frames interval reported frames).saved, p.2 ≠ f := by
  have hbw : is_black_or_white_frame f = true := by
    rw [is_black_or_white_frame, is_black_or_white_frameT]
    rcases hf with h | h
    · simp [h]
    · simp [h]
  refine ⟨hbw, ?_⟩
  intro p hp hpf
  have hsv := foldl_saved_not_bw interval reported frames initState
    (by simp [initState]) p hp
  rw [hpf, hbw] at hsv
  exact absurd hsv (by decide)

/-- C1 (witness for the amended claim): a fully black frame is flagged and
never saved. -/
theorem extract_never_saves_mostly_bw_frame_witness :
    is_black_or_white_frame blackFrame = true ∧
    ∀ p ∈ (extract_frames 1 1 [blackFrame]).saved, p.2 ≠ blackFrame :=
  extract_never_saves_mostly_bw_frame 1 1 [blackFrame] blackFrame
    (Or.inl (by
      have hb : numBlackPixels blackFrame = 10 := by decide
      have hn : numPixels blackFrame = 10 := by decide
      rw [hb, hn]
      norm_num))

/-- C2: the archive entry names are exactly the selected filenames, each
renamed to `stem ++ "_" ++ trigger ++ ext` when the trigger word is
non-empty and kept as-is otherwise, and the entry count equals the
selection count. -/
theorem zip_entry_names (folder : String) (selected : List String)
    (trigger : String) :
    (zip_selected_frames folder selected trigger).map Prod.fst
      = selected.map (fun img =>
          if trigger ≠ "" then (splitext img).1 ++ "_" ++ trigger ++ (splitext img).2
          else img) ∧
    (zip_selected_frames folder selected trigger).length = selected.length := by
  refine ⟨?_, zip_length folder selected trigger⟩
  rw [zip_map_fst]
  rfl

/-- C3: `extract_frames` tests against the black/white heuristic exactly the
frames whose index is a multiple of the interval, and the number of
candidates equals `⌈T / N⌉` (hence is at most that). -/
theorem extract_candidates_every_Nth (interval reported : Nat)
    (frames : List Frame) (h : 1 ≤ interval) :
    (extract_frames interval reported frames).tested
      = (List.range frames.length).filter (fun j => j % interval = 0) ∧
    (extract_frames interval reported frames).tested.length
      = (frames.length + interval - 1) / interval := by
  have ht : (extract_frames interval reported frames).tested
      = (List.range frames.length).filter (fun j => j % interval = 0) := by
    rw [extract_frames, foldl_tested]
    simp [initState, List.range_eq_range']
  exact ⟨ht, by rw [ht, length_filter_mod_range interval h]⟩

/-- C3 (witness): with interval 3 and 7 decoded frames the candidates are
the frames at indices 0, 3, 6 — that is, `⌈7/3⌉ = 3` of them. -/
theorem extract_candidates_every_Nth_witness :
    (extract_frames 3 10 (List.replicate 7 [(100, 100, 100)])).tested
      = (List.range (List.replicate 7 [((100 : Nat), (100 : Nat), (100 : Nat))]).length).filter
          (fun j => j % 3 = 0) ∧
    (extract_frames 3 10 (List.replicate 7 [(100, 100, 100)])).tested.length
      = ((List.replicate 7 [((100 : Nat), (100 : Nat), (100 : Nat))]).length + 3 - 1) / 3 :=
  extract_candidates_every_Nth 3 10 (List.replicate 7 [(100, 100, 100)]) (by decide)

/-- C4: the sequence numbers of the saved frames are `0, 1, …, k-1` in save
order — strictly increasing with no gaps — and the saved filenames are
exactly `frame_00000.jpg, …` up to `k-1` for the `k` frames saved. -/
theorem saved_filenames_sequential (interval reported : Nat)
    (frames : List Frame) :
    (extract_frames interval reported frames).saved.map Prod.fst
      = List.range (extract_frames interval reported frames).extracted_count ∧
    (extract_frames interval reported frames).extracted_count
      = (extract_frames interval reported frames).saved.length ∧
    List.Sorted (fun a b => a < b)
      ((extract_frames interval reported frames).saved.map Prod.fst) ∧
    ((extract_frames interval reported frames).saved.map Prod.fst).map frameFilename
      = (List.range (extract_frames interval reported frames).saved.length).map
          frameFilename := by
  have h1 : (extract_frames interval reported frames).saved.map Prod.fst
      = List.range (extract_frames interval reported frames).extracted_count :=
    foldl_saved_fst interval reported frames initState (by simp [initState])
  have h2 : (extract_frames interval reported frames).extracted_count
      = (extract_frames interval reported frames).saved.length := by
    have hl := congrArg List.length h1
    simpa using hl.symm
  refine ⟨h1, h2, ?_, ?_⟩
  · rw [h1]
    exact List.pairwise_lt_range _
  · rw [h1, ← h2]

/-- C5: the "Proceed to Download" handler writes no archive exactly when the
selection is empty; an empty selection is reported as an error, and a
non-empty selection is zipped with no error. -/
theorem proceed_requires_selection (fp dn : String) (sel : List String)
    (tw : String) :
    ((proceed_to_download fp dn sel tw).archive = none ↔ sel = []) ∧
    (sel = [] → (proceed_to_download fp dn sel tw).errors
      = ["No frames selected. Please select at least one frame."]) ∧
    (sel ≠ [] → (proceed_to_download fp dn sel tw).errors = [] ∧
      (proceed_to_download fp dn sel tw).archive
        = some (dn ++ ".zip", zip_selected_frames fp sel tw)) := by
  rcases sel with _ | ⟨s, sel⟩
  · exact ⟨by simp [proceed_to_download], fun _ => rfl, fun hn => absurd rfl hn⟩
  · refine ⟨by simp [proceed_to_download], fun he => by simp at he, fun _ => ⟨rfl, rfl⟩⟩

/-- C5 (witness): with an empty selection no archive is produced and the
error is reported; instantiated at concrete paths. -/
theorem proceed_requires_selection_witness :
    ((proceed_to_download "extracted_frames" "frames_dataset" [] "cat").archive = none
        ↔ ([] : List String) = []) ∧
    (([] : List String) = [] →
      (proceed_to_download "extracted_frames" "frames_dataset" [] "cat").errors
        = ["No frames selected. Please select at least one frame."]) ∧
    (([] : List String) ≠ [] →
      (proceed_to_download "extracted_frames" "frames_dataset" [] "cat").errors = [] ∧
      (proceed_to_download "extracted_frames" "frames_dataset" [] "cat").archive
        = some ("frames_dataset" ++ ".zip",
            zip_selected_frames "extracted_frames" [] "cat")) :=
  proceed_requires_selection "extracted_frames" "frames_dataset" [] "cat"

/-- C6: the gallery's returned selection is a subset of the listed files,
the gallery lists the files in sorted order, and with every checkbox left at
its default (on) the selection is the whole sorted listing. -/
theorem display_selection_props (files : List String)
    (st : String → Option Bool) :
    (∀ f ∈ display_and_select_frames files st, f ∈ files) ∧
    List.Sorted (fun a b => a ≤ b) (sortedListdir files) ∧
    display_and_select_frames files (fun _ => none) = sortedListdir files := by
  refine ⟨?_, List.sorted_insertionSort _ files, ?_⟩
  · intro f hf
    rw [display_eq_filter] at hf
    exact (mem_sortedListdir files f).mp (List.mem_of_mem_filter hf)
  · rw [display_eq_filter]
    simp

/-- C6 (witness): instantiated at a two-file listing with one checkbox
toggled off. -/
theorem display_selection_props_witness :
    (∀ f ∈ display_and_select_frames ["b.jpg", "a.jpg"]
        (fun g => if g = "b.jpg" then some false else none), f ∈ ["b.jpg", "a.jpg"]) ∧
    List.Sorted (fun a b => a ≤ b) (sortedListdir ["b.jpg", "a.jpg"]) ∧
    display_and_select_frames ["b.jpg", "a.jpg"] (fun _ => none)
      = sortedListdir ["b.jpg", "a.jpg"] :=
  display_selection_props ["b.jpg", "a.jpg"]
    (fun g => if g = "b.jpg" then some false else none)

/-- C7: a failed download reports an error and returns `None, None`; a
successful download returns the filename and title; and the extraction
stage runs only when a path was returned. -/
theorem download_failure_blocks_extraction (e filename : String)
    (title : Option String) :
    (download_youtube_video (.err e)).path = none ∧
    (download_youtube_video (.err e)).title = none ∧
    (download_youtube_video (.err e)).errors = ["Error downloading video: " ++ e] ∧
    extraction_stage_runs (.err e) = false ∧
    (download_youtube_video (.ok filename title)).path = some filename ∧
    (download_youtube_video (.ok filename title)).title = title ∧
    (∀ o : DlOutcome, extraction_stage_runs o = true →
      (download_youtube_video o).path ≠ none) := by
  refine ⟨rfl, rfl, rfl, rfl, rfl, rfl, ?_⟩
  intro o ho hnone
  rw [extraction_stage_runs, hnone] at ho
  exact absurd ho (by decide)

/-- C7 (witness): instantiated at a concrete failure message and a concrete
successful outcome. -/
theorem download_failure_blocks_extraction_witness :
    (download_youtube_video (.err "404")).path = none ∧
    (download_youtube_video (.err "404")).title = none ∧
    (download_youtube_video (.err "404")).errors = ["Error downloading video: " ++ "404"] ∧
    extraction_stage_runs (.err "404") = false ∧
    (download_youtube_video (.ok "videos/clip.mp4" (some "clip"))).path
      = some "videos/clip.mp4" ∧
    (download_youtube_video (.ok "videos/clip.mp4" (some "clip"))).title = some "clip" ∧
    (∀ o : DlOutcome, extraction_stage_runs o = true →
      (download_youtube_video o).path ≠ none) :=
  download_failure_blocks_extraction "404" "videos/clip.mp4" (some "clip")

/-- C8: with the empty trigger word every archive entry keeps its original
filename. -/
theorem zip_empty_trigger_preserves_names (folder : String)
    (selected : List String) :
    (zip_selected_frames folder selected "").map Prod.fst = selected := by
  rw [zip_map_fst]
  have he : arcName "" = id := funext fun img => by simp [arcName]
  rw [he, List.map_id]

/-- C9: the progress denominator is never zero (a reported total of 0 is
replaced by 1) and every value passed to the progress bar is at most 1. -/
theorem progress_in_bounds (reported frame_count interval : Nat)
    (frames : List Frame) :
    0 < effectiveTotal reported ∧
    progressValue frame_count reported ≤ 1 ∧
    ∀ q ∈ (extract_frames interval reported frames).progressVals, q ≤ 1 := by
  refine ⟨?_, min_le_right _ _, ?_⟩
  · rw [effectiveTotal]
    split <;> omega
  · exact foldl_progress_le interval reported frames initState (by simp [initState])

/-- C9 (witness): instantiated at a reported total of 0 (fewer reported than
decoded frames) with two decoded frames. -/
theorem progress_in_bounds_witness :
    0 < effectiveTotal 0 ∧
    progressValue 5 0 ≤ 1 ∧
    ∀ q ∈ (extract_frames 1 0 [[(100, 100, 100)], [(0, 0, 0)]]).progressVals, q ≤ 1 :=
  progress_in_bounds 0 5 1 [[(100, 100, 100)], [(0, 0, 0)]]

/-- C10: with a frame interval of at least 1 the `%` in the loop is always
well-defined — the run with Python's fallible `%` raises no
`ZeroDivisionError` and agrees with the total model. -/
theorem mod_never_divzero (interval reported : Nat) (frames : List Frame)
    (h : 1 ≤ interval) :
    extract_frames_checked interval reported frames
      = .ok (extract_frames interval reported frames) := by
  rw [extract_frames_checked, extract_frames]
  exact foldlM_checked interval reported (by omega) frames initState

/-- C10 (witness): instantiated at interval 2 with two decoded frames. -/
theorem mod_never_divzero_witness :
    extract_frames_checked 2 3 [[(0, 0, 0)], [(100, 100, 100)]]
      = .ok (extract_frames 2 3 [[(0, 0, 0)], [(100, 100, 100)]]) :=
  mod_never_divzero 2 3 [[(0, 0, 0)], [(100, 100, 100)]] (by decide)

end YouTune
